import Mathlib

/-!
Verification of `src/app/processor.py` of the repository
`stock-backtest-strategies`.

The processor has two operations:

* `validate_input_message` checks a raw message against an externally
  injected schema predicate (`validate_message_schema`) and either returns
  the message unchanged or raises `ValueError` carrying the offending
  message;
* `evaluate_strategy` reads six optional signal fields, counts how many
  hold one of the four affirmative sentinel strings, decides `"BUY"` when
  the count is at least 3 (else `"HOLD"`), and returns the shallow merge
  `{**message, **result}` of the input with the fresh decision record.

Messages are Python dictionaries with string keys and arbitrary values.
We embed them as association lists over a JSON-like `Value` type; lookup
(`dictGet`) returns the value at the first matching key, and assignment
(`dictInsert`) overwrites the first matching entry in place or appends,
exactly as a Python dict literal `{**a, **b}` behaves (keys of `a` keep
their position, colliding values are overwritten by `b`, new keys of `b`
are appended in order).
-/

/-- Arbitrary Python/JSON-like values a message field may hold. -/
inductive Value where
  | str (s : String)
  | int (n : Int)
  | bool (b : Bool)
  | null
  | arr (xs : List Value)
  | obj (fs : List (String × Value))

/-- A message: a Python `dict[str, Any]` embedded as an association list. -/
abbrev Msg := List (String × Value)

/-- `m.get(k)`: the value at the first entry with key `k`, if any. -/
def dictGet (m : Msg) (k : String) : Option Value :=
  match m with
  | [] => none
  | (k', v) :: rest => if k' == k then some v else dictGet rest k

/-- Dict assignment: overwrite the first entry with key `k` in place,
or append `(k, v)` when no entry has key `k`. -/
def dictInsert (m : Msg) (k : String) (v : Value) : Msg :=
  match m with
  | [] => [(k, v)]
  | (k', v') :: rest =>
      if k' == k then (k, v) :: rest else (k', v') :: dictInsert rest k v

/-- Python `{**a, **b}`: start from `a` and assign each entry of `b`. -/
def dictMerge (a b : Msg) : Msg :=
  b.foldl (fun acc kv => dictInsert acc kv.1 kv.2) a

/-- The error raised by the validator (`ValueError("Invalid message format")`);
per the spec it carries the offending message for diagnostics. -/
structure FormatError where
  offending : Msg

/-- Embedding of `validate_input_message` (processor.py lines 17-34).
The external schema predicate `validate_message_schema` is injected as an
argument; the `raise` is embedded as `Except.error`. -/
def validate_input_message (validate_message_schema : Msg → Bool) (message : Msg) :
    Except FormatError Msg :=
  if validate_message_schema message then Except.ok message
  else Except.error ⟨message⟩

/-- The affirmative sentinel tuple of processor.py line 60. -/
def affirmativeTokens : List String := ["BUY", "INCLUDE", "OVEREXPOSED", "REVERT_UP"]

/-- Python `v in ("BUY", "INCLUDE", "OVEREXPOSED", "REVERT_UP")` where `v`
is the result of `message.get(field)`: only a string equal to one of the
four tokens compares equal; `None` (absent field) and every non-string
value compare unequal to all of them. -/
def isAffirmative (v : Option Value) : Bool :=
  match v with
  | some (Value.str s) => affirmativeTokens.contains s
  | _ => false

/-- The `votes` list of processor.py lines 51-58: the six named optional
signal fields, in source order. -/
def signalValues (m : Msg) : List (Option Value) :=
  [dictGet m "alpha_signal", dictGet m "momentum_signal", dictGet m "sentiment_signal",
   dictGet m "composite_signal", dictGet m "beta_signal", dictGet m "factor_signal"]

/-- `vote_count` of processor.py line 60: how many of the six signal
values are affirmative. -/
def strategyVotes (m : Msg) : Nat :=
  List.countP isAffirmative (signalValues m)

/-- `decision` of processor.py line 62: `"BUY"` when `vote_count >= 3`. -/
def strategyDecision (m : Msg) : String :=
  if strategyVotes m ≥ 3 then "BUY" else "HOLD"

/-- The `result` dict of processor.py lines 63-66, built fresh each call. -/
def decisionResult (m : Msg) : Msg :=
  [("final_strategy_decision", Value.str (strategyDecision m)),
   ("strategy_votes", Value.int (strategyVotes m))]

/-- `symbol = message.get("symbol", "UNKNOWN")` (processor.py line 47);
used for logging only. -/
def loggedSymbol (m : Msg) : Value :=
  (dictGet m "symbol").getD (Value.str "UNKNOWN")

/-- Embedding of `evaluate_strategy` (processor.py lines 37-69). -/
def evaluate_strategy (message : Msg) : Msg :=
  let votes : List (Option Value) :=
    [dictGet message "alpha_signal", dictGet message "momentum_signal",
     dictGet message "sentiment_signal", dictGet message "composite_signal",
     dictGet message "beta_signal", dictGet message "factor_signal"]
  let vote_count : Nat := List.countP isAffirmative votes
  let decision : String := if vote_count ≥ 3 then "BUY" else "HOLD"
  let result : Msg :=
    [("final_strategy_decision", Value.str decision),
     ("strategy_votes", Value.int vote_count)]
  dictMerge message result

/-- A call to `evaluate_strategy`, modelled as the pair
(return value, the input dictionary after the call).  The source reads
`message` only through `.get` and dict unpacking and never assigns into
it, so the post-call input is the input itself. -/
def evaluateCall (m : Msg) : Msg × Msg :=
  (evaluate_strategy m, m)

/-- A trace of successive `evaluate_strategy` calls.  The source holds no
module-level mutable state (only the logger and constants), so each call
is embedded independently. -/
def evalCalls (ms : List Msg) : List Msg :=
  ms.map evaluate_strategy

/-- The six signal field names, as the claim enumerates them. -/
def signalFields : List String :=
  ["alpha_signal", "momentum_signal", "sentiment_signal",
   "composite_signal", "beta_signal", "factor_signal"]

/-- Claim-side affirmativeness: membership of the field's value in the
set of the four tokens, absent or other values contributing zero. -/
def claimAffirmative (v : Option Value) : Bool :=
  match v with
  | some (Value.str s) => s == "BUY" || s == "INCLUDE" || s == "OVEREXPOSED" || s == "REVERT_UP"
  | _ => false

/-- Claim-side vote count: the number of the six fields whose value is a
member of the affirmative set. -/
def countAffirmativeFields (m : Msg) : Nat :=
  List.countP (fun f => claimAffirmative (dictGet m f)) signalFields

-- Basic dictionary lemmas -----------------------------------------------

theorem dictGet_insert_self (m : Msg) (k : String) (v : Value) :
    dictGet (dictInsert m k v) k = some v := by
  induction m with
  | nil => simp [dictInsert, dictGet]
  | cons p rest ih =>
    obtain ⟨k', v'⟩ := p
    by_cases h : k' = k
    · subst h; simp [dictInsert, dictGet]
    · simp [dictInsert, dictGet, h, ih]

theorem dictGet_insert_ne (m : Msg) (k j : String) (v : Value) (h : j ≠ k) :
    dictGet (dictInsert m k v) j = dictGet m j := by
  induction m with
  | nil => simp [dictInsert, dictGet, Ne.symm h]
  | cons p rest ih =>
    obtain ⟨k', v'⟩ := p
    by_cases hk : k' = k
    · subst hk
      simp [dictInsert, dictGet, Ne.symm h]
    · simp [dictInsert, dictGet, hk, ih]

theorem evaluate_strategy_eq (m : Msg) :
    evaluate_strategy m =
      dictInsert (dictInsert m "final_strategy_decision" (Value.str (strategyDecision m)))
        "strategy_votes" (Value.int (strategyVotes m)) := rfl

theorem dictGet_evaluate_votes (m : Msg) :
    dictGet (evaluate_strategy m) "strategy_votes" = some (Value.int (strategyVotes m)) := by
  rw [evaluate_strategy_eq]
  exact dictGet_insert_self _ _ _

theorem dictGet_evaluate_decision (m : Msg) :
    dictGet (evaluate_strategy m) "final_strategy_decision" =
      some (Value.str (strategyDecision m)) := by
  rw [evaluate_strategy_eq,
    dictGet_insert_ne _ _ _ _ (by decide : "final_strategy_decision" ≠ "strategy_votes")]
  exact dictGet_insert_self _ _ _

theorem isAffirmative_eq_claim (v : Option Value) :
    isAffirmative v = claimAffirmative v := by
  match v with
  | none => rfl
  | some (Value.str s) =>
      show (affirmativeTokens.contains s) = _
      rw [affirmativeTokens, claimAffirmative, Bool.eq_iff_iff]
      simp [or_assoc]
  | some (Value.int n) => rfl
  | some (Value.bool b) => rfl
  | some Value.null => rfl
  | some (Value.arr xs) => rfl
  | some (Value.obj fs) => rfl

theorem strategyVotes_eq_count (m : Msg) :
    strategyVotes m = countAffirmativeFields m := by
  simp [strategyVotes, countAffirmativeFields, signalValues, signalFields,
    List.countP_cons, isAffirmative_eq_claim]

theorem strategyVotes_le_six (m : Msg) :
    strategyVotes m ≤ 6 := by
  have h := List.countP_le_length (l := signalValues m) (p := isAffirmative)
  simpa [signalValues] using h

-- Claim theorems ---------------------------------------------------------

/-- C1: for every validated message, the output's `final_strategy_decision`
is `"BUY"` iff its vote count is at least 3 (threshold inclusive), and
`"HOLD"` otherwise; the output's `strategy_votes` field carries that count. -/
theorem evaluate_threshold_law (m : Msg) :
    (dictGet (evaluate_strategy m) "final_strategy_decision" = some (Value.str "BUY") ↔
      strategyVotes m ≥ 3) ∧
    (dictGet (evaluate_strategy m) "final_strategy_decision" = some (Value.str "HOLD") ↔
      ¬ strategyVotes m ≥ 3) ∧
    dictGet (evaluate_strategy m) "strategy_votes" = some (Value.int (strategyVotes m)) := by
  have hd := dictGet_evaluate_decision m
  have hBH : (Value.str "HOLD") ≠ (Value.str "BUY") := by simp
  have hBH' : (Value.str "BUY") ≠ (Value.str "HOLD") := by simp
  by_cases h3 : strategyVotes m ≥ 3
  · rw [strategyDecision, if_pos h3] at hd
    exact ⟨by simp [hd, h3], by simp [hd, hBH', h3], dictGet_evaluate_votes m⟩
  · rw [strategyDecision, if_neg h3] at hd
    exact ⟨by simp [hd, hBH, h3], by simp [hd, h3], dictGet_evaluate_votes m⟩

/-- C2: the output's `strategy_votes` equals the number of the six signal
fields whose value is a member of {"BUY", "INCLUDE", "OVEREXPOSED",
"REVERT_UP"}; absent fields or any other value contribute zero. -/
theorem evaluate_votes_are_field_count (m : Msg) :
    dictGet (evaluate_strategy m) "strategy_votes" =
      some (Value.int (countAffirmativeFields m)) := by
  rw [dictGet_evaluate_votes, strategyVotes_eq_count]

/-- C3: `validate_input_message` fails with a `FormatError` iff the
injected schema check returns false; when the check returns true it
returns the input message itself, unchanged. -/
theorem validate_gate (validate_message_schema : Msg → Bool) (m : Msg) :
    ((∃ e : FormatError,
        validate_input_message validate_message_schema m = Except.error e) ↔
      validate_message_schema m = false) ∧
    (validate_message_schema m = true →
      validate_input_message validate_message_schema m = Except.ok m) := by
  cases h : validate_message_schema m
  · refine ⟨⟨fun _ => rfl, fun _ => ⟨⟨m⟩, by simp [validate_input_message, h]⟩⟩, ?_⟩
    intro hc
    simp [h] at hc
  · refine ⟨⟨?_, ?_⟩, fun _ => by simp [validate_input_message, h]⟩
    · rintro ⟨e, he⟩
      simp [validate_input_message, h] at he
    · intro hf
      simp at hf

/-- C3 witness: a concrete passing and a concrete failing message under
the schema check accepting exactly the empty message. -/
theorem validate_gate_witness :
    validate_input_message (fun x => x.isEmpty) [] = Except.ok [] ∧
    (∃ e : FormatError,
      validate_input_message (fun x => x.isEmpty) [("symbol", Value.str "AAPL")] =
        Except.error e) :=
  ⟨(validate_gate (fun x => x.isEmpty) []).2 rfl,
   ((validate_gate (fun x => x.isEmpty) [("symbol", Value.str "AAPL")]).1).mpr rfl⟩

/-- C4: every key of the input other than `final_strategy_decision` and
`strategy_votes` appears in the output of `evaluate_strategy` with its
value unchanged. -/
theorem evaluate_preserves_other_keys (m : Msg) (k : String)
    (h1 : k ≠ "final_strategy_decision") (h2 : k ≠ "strategy_votes") :
    dictGet (evaluate_strategy m) k = dictGet m k := by
  rw [evaluate_strategy_eq, dictGet_insert_ne _ _ _ _ h2, dictGet_insert_ne _ _ _ _ h1]

/-- A sample message from the spec's example scenarios. -/
def sampleMsg : Msg :=
  [("symbol", Value.str "AAPL"), ("alpha_signal", Value.str "BUY"),
   ("momentum_signal", Value.str "BUY"), ("sentiment_signal", Value.str "BUY")]

/-- C4 witness: the `symbol` key of a concrete message survives unchanged. -/
theorem evaluate_preserves_other_keys_witness :
    "symbol" ≠ "final_strategy_decision" ∧ "symbol" ≠ "strategy_votes" ∧
    dictGet (evaluate_strategy sampleMsg) "symbol" = dictGet sampleMsg "symbol" :=
  ⟨by decide, by decide,
   evaluate_preserves_other_keys sampleMsg "symbol" (by decide) (by decide)⟩

/-- C5: the output of `evaluate_strategy` is the shallow merge of the
input with the freshly built decision record, whose values for the two
decision keys overwrite any same-named values already in the input. -/
theorem evaluate_merge_overwrite (m : Msg) :
    evaluate_strategy m = dictMerge m (decisionResult m) ∧
    dictGet (evaluate_strategy m) "final_strategy_decision" =
      some (Value.str (strategyDecision m)) ∧
    dictGet (evaluate_strategy m) "strategy_votes" = some (Value.int (strategyVotes m)) :=
  ⟨rfl, dictGet_evaluate_decision m, dictGet_evaluate_votes m⟩

/-- C6: the output's `strategy_votes` is an integer between 0 and 6, and
its `final_strategy_decision` is exactly one of `"BUY"` or `"HOLD"`. -/
theorem evaluate_output_bounds (m : Msg) :
    dictGet (evaluate_strategy m) "strategy_votes" = some (Value.int (strategyVotes m)) ∧
    0 ≤ (strategyVotes m : Int) ∧ strategyVotes m ≤ 6 ∧
    (dictGet (evaluate_strategy m) "final_strategy_decision" = some (Value.str "BUY") ∨
     dictGet (evaluate_strategy m) "final_strategy_decision" = some (Value.str "HOLD")) := by
  refine ⟨dictGet_evaluate_votes m, Int.natCast_nonneg _, strategyVotes_le_six m, ?_⟩
  have hd := dictGet_evaluate_decision m
  by_cases h3 : strategyVotes m ≥ 3
  · left
    rw [hd, strategyDecision, if_pos h3]
  · right
    rw [hd, strategyDecision, if_neg h3]

/-- C7: `evaluate_strategy` is deterministic and stateless: calling it
twice on the same message yields identical outputs, and in any sequence
of calls each result depends only on its own argument, so no state is
retained across calls. -/
theorem evaluate_deterministic_stateless (m : Msg) (pre post : List Msg) :
    evalCalls [m, m] = [evaluate_strategy m, evaluate_strategy m] ∧
    evalCalls (pre ++ m :: post) =
      evalCalls pre ++ evaluate_strategy m :: evalCalls post := by
  constructor
  · rfl
  · simp [evalCalls]

/-- C8: when the key `symbol` is absent, the logged symbol defaults to
`"UNKNOWN"` and the decision and vote count are still computed and
returned normally. -/
theorem evaluate_symbol_default (m : Msg) (h : dictGet m "symbol" = none) :
    loggedSymbol m = Value.str "UNKNOWN" ∧
    dictGet (evaluate_strategy m) "final_strategy_decision" =
      some (Value.str (strategyDecision m)) ∧
    dictGet (evaluate_strategy m) "strategy_votes" = some (Value.int (strategyVotes m)) := by
  refine ⟨?_, dictGet_evaluate_decision m, dictGet_evaluate_votes m⟩
  rw [loggedSymbol, h]
  rfl

/-- The spec's no-symbol example message. -/
def noSymbolMsg : Msg :=
  [("alpha_signal", Value.str "INCLUDE"), ("beta_signal", Value.str "OVEREXPOSED")]

/-- C8 witness: the spec's example without a `symbol` key: logged symbol
"UNKNOWN", two votes, decision "HOLD". -/
theorem evaluate_symbol_default_witness :
    dictGet noSymbolMsg "symbol" = none ∧
    loggedSymbol noSymbolMsg = Value.str "UNKNOWN" ∧
    strategyVotes noSymbolMsg = 2 ∧
    dictGet (evaluate_strategy noSymbolMsg) "final_strategy_decision" =
      some (Value.str "HOLD") :=
  ⟨rfl, (evaluate_symbol_default noSymbolMsg rfl).1, rfl,
   (evaluate_symbol_default noSymbolMsg rfl).2.1⟩

/-- C9: `evaluate_strategy` is total on every message whatever the values
of its fields (it always returns a message holding the vote count and the
decision), and every value that is not one of the four affirmative string
tokens — an integer, boolean, null, array, object, or any other string —
contributes zero to the vote count. -/
theorem evaluate_total_non_affirmative (m : Msg) :
    dictGet (evaluate_strategy m) "strategy_votes" = some (Value.int (strategyVotes m)) ∧
    dictGet (evaluate_strategy m) "final_strategy_decision" =
      some (Value.str (strategyDecision m)) ∧
    (∀ n : Int, isAffirmative (some (Value.int n)) = false) ∧
    (∀ b : Bool, isAffirmative (some (Value.bool b)) = false) ∧
    isAffirmative (some Value.null) = false ∧
    (∀ xs : List Value, isAffirmative (some (Value.arr xs)) = false) ∧
    (∀ fs : List (String × Value), isAffirmative (some (Value.obj fs)) = false) ∧
    (∀ s : String, s ∉ affirmativeTokens → isAffirmative (some (Value.str s)) = false) := by
  refine ⟨dictGet_evaluate_votes m, dictGet_evaluate_decision m, fun _ => rfl, fun _ => rfl,
    rfl, fun _ => rfl, fun _ => rfl, fun s hs => ?_⟩
  simpa [isAffirmative] using hs

/-- C9 witness: concrete non-affirmative values contribute zero. -/
theorem evaluate_total_non_affirmative_witness :
    "SELL" ∉ affirmativeTokens ∧
    isAffirmative (some (Value.str "SELL")) = false ∧
    isAffirmative (some (Value.int 3)) = false :=
  ⟨by decide, (evaluate_total_non_affirmative []).2.2.2.2.2.2.2 "SELL" (by decide),
   (evaluate_total_non_affirmative []).2.2.1 3⟩

/-- C10: neither operation mutates its input: the input dictionary after a
call to `evaluate_strategy` is exactly the input before it (the output is
a fresh merge), and the validator returns the very input object on
success or fails carrying it, unmodified, on failure. -/
theorem no_input_mutation (validate_message_schema : Msg → Bool) (m : Msg) :
    (evaluateCall m).2 = m ∧
    (validate_input_message validate_message_schema m = Except.ok m ∨
     validate_input_message validate_message_schema m = Except.error ⟨m⟩) := by
  refine ⟨rfl, ?_⟩
  cases h : validate_message_schema m
  · right
    simp [validate_input_message, h]
  · left
    simp [validate_input_message, h]

-- Sanity examples from the spec's scenarios ------------------------------

theorem sampleMsg_buys :
    dictGet (evaluate_strategy sampleMsg) "final_strategy_decision" =
      some (Value.str "BUY") ∧ strategyVotes sampleMsg = 3 := by
  constructor <;> rfl

theorem collision_is_overwritten :
    evaluate_strategy [("strategy_votes", Value.int 99)] =
      [("strategy_votes", Value.int 0), ("final_strategy_decision", Value.str "HOLD")] := rfl
